import Mathlib

/-!
Verification of the Pebble watchface in `src/src/c/main.c`.

The program is a single-file event-driven watchface: the host SDK invokes
the callbacks `tick_handler`, `battery_callback` / `battery_update_proc`,
`bluetooth_callback` and `inbox_received_callback`, each of which updates
some display state and issues SDK calls (text updates, rectangle fills,
outbound app messages, haptic pulses).  We embed each callback as a pure
Lean function from its inputs (and, where relevant, the prior state it
reads) to the list of SDK side effects it performs, in program order.
-/

namespace Watchface

/-- The fields of the C `struct tm` that the program reads (via `localtime`
and the `tick_time` parameter).  `tm_mon` is 0-based (0 = January) and
`tm_wday` is 0-based (0 = Sunday), as in C. -/
structure Tm where
  tm_min : Nat
  tm_hour : Nat
  tm_mday : Nat
  tm_mon : Nat
  tm_wday : Nat
deriving DecidableEq, Repr

/-- The display layers the callbacks touch, named after the static pointers
`s_time_layer`, `s_date_layer`, `s_weather_layer`, `s_battery_layer`,
`s_bt_icon_layer` in `main.c`. -/
inductive LayerId where
  | time
  | date
  | weather
  | battery
  | btIcon
deriving DecidableEq, Repr

/-- The two fill colors `battery_update_proc` uses. -/
inductive GColor where
  | black
  | white
deriving DecidableEq, Repr

/-- A rectangle as passed to `graphics_fill_rect` (origin, width, height).
All rectangles the program constructs have nonnegative components, so `Nat`
components are faithful. -/
structure GRect where
  x : Nat
  y : Nat
  w : Nat
  h : Nat
deriving DecidableEq, Repr

/-- One observable SDK call made by a callback:
* `setText l s` — `text_layer_set_text` on layer `l`;
* `markDirty l` — `layer_mark_dirty`;
* `sendAppMessage fields` — `app_message_outbox_begin` + the key/value
  pairs written into the dictionary (in order) + `app_message_outbox_send`;
* `fillRect c r` — `graphics_fill_rect` with current fill color `c`;
* `setHidden l b` — `layer_set_hidden`;
* `vibeDoublePulse` — `vibes_double_pulse`;
* `log s` — `APP_LOG`. -/
inductive Effect where
  | setText (l : LayerId) (s : String)
  | markDirty (l : LayerId)
  | sendAppMessage (fields : List (Nat × Nat))
  | fillRect (c : GColor) (r : GRect)
  | setHidden (l : LayerId) (hidden : Bool)
  | vibeDoublePulse
  | log (s : String)
deriving DecidableEq, Repr

/-! ## strftime model

`update_time` formats with `strftime` patterns `"%H:%M"`, `"%I:%M"` and
`"%a %b %e"`.  We model exactly the conversion specifiers used.  The
formatted results always fit their buffers (`s_buffer[8]` holds the 5-char
time, `date_buffer[16]` holds the at-most-10-char date), so no `strftime`
overflow case arises and the model needs no truncation. -/

/-- Zero-padded two-digit decimal, as produced by `%H` / `%M` for values
below 100 (`tm_hour` < 24 and `tm_min` < 60 always are). -/
def pad2 (n : Nat) : String :=
  if n < 10 then "0" ++ toString n else toString n

/-- `%H`: hour of the 24-hour clock, zero-padded. -/
def strftime_H (t : Tm) : String := pad2 t.tm_hour

/-- `%I`: hour of the 12-hour clock (01–12), zero-padded. -/
def strftime_I (t : Tm) : String :=
  pad2 (if t.tm_hour % 12 = 0 then 12 else t.tm_hour % 12)

/-- `%M`: minute, zero-padded. -/
def strftime_M (t : Tm) : String := pad2 t.tm_min

/-- `%a`: abbreviated weekday name (`tm_wday` 0 = Sunday). -/
def strftime_a (t : Tm) : String :=
  match t.tm_wday with
  | 0 => "Sun"
  | 1 => "Mon"
  | 2 => "Tue"
  | 3 => "Wed"
  | 4 => "Thu"
  | 5 => "Fri"
  | 6 => "Sat"
  | _ => ""

/-- `%b`: abbreviated month name (`tm_mon` 0 = January). -/
def strftime_b (t : Tm) : String :=
  match t.tm_mon with
  | 0 => "Jan"
  | 1 => "Feb"
  | 2 => "Mar"
  | 3 => "Apr"
  | 4 => "May"
  | 5 => "Jun"
  | 6 => "Jul"
  | 7 => "Aug"
  | 8 => "Sep"
  | 9 => "Oct"
  | 10 => "Nov"
  | 11 => "Dec"
  | _ => ""

/-- `%e`: day of month, SPACE-padded to width 2 (single digits are preceded
by a space, per the C standard). -/
def strftime_e (t : Tm) : String :=
  if t.tm_mday < 10 then " " ++ toString t.tm_mday else toString t.tm_mday

/-- The string `update_time` writes into `s_buffer`:
`strftime(s_buffer, 8, clock_is_24h_style() ? "%H:%M" : "%I:%M", t)`. -/
def time_text (is24h : Bool) (t : Tm) : String :=
  (if is24h then strftime_H t else strftime_I t) ++ ":" ++ strftime_M t

/-- The string `update_time` writes into `date_buffer`:
`strftime(date_buffer, 16, "%a %b %e", t)`. -/
def date_text (t : Tm) : String :=
  strftime_a t ++ " " ++ strftime_b t ++ " " ++ strftime_e t

/-- `update_time`: reads the current local time `t` and the 24-hour flag,
sets the time layer's text and then the date layer's text. -/
def update_time (is24h : Bool) (t : Tm) : List Effect :=
  [Effect.setText LayerId.time (time_text is24h t),
   Effect.setText LayerId.date (date_text t)]

/-- `tick_handler`: runs `update_time`, then, iff the tick's minute is a
multiple of 30, builds an outbound dictionary with the single entry
`dict_write_uint8(iter, 0, 0)` (key 0, one-byte value 0) and sends it.
(`update_time` re-reads the wall clock via `time(NULL)`/`localtime`, which
on a minute tick is the same wall time as `tick_time`.) -/
def tick_handler (is24h : Bool) (t : Tm) : List Effect :=
  update_time is24h t ++
    (if t.tm_min % 30 = 0 then [Effect.sendAppMessage [(0, 0)]] else [])

/-- Is this effect an outbound app message (a weather-refresh request)? -/
def is_send : Effect → Bool
  | Effect.sendAppMessage _ => true
  | _ => false

/-- The field lists of all outbound app messages in an effect list. -/
def sent_messages (effs : List Effect) : List (List (Nat × Nat)) :=
  effs.filterMap fun e =>
    match e with
    | Effect.sendAppMessage fields => some fields
    | _ => none

/-! ## Battery -/

/-- `battery_callback`: stores `state.charge_percent` into
`s_battery_level` and marks the battery layer dirty.  Returns the new
stored level and the effects. -/
def battery_callback (charge_percent : Nat) : Nat × List Effect :=
  (charge_percent, [Effect.markDirty LayerId.battery])

/-- The bar width computed in `battery_update_proc`:
`(int)(float)(((float)s_battery_level / 100.0F) * 114.0F)`.
The C cast to `int` truncates toward zero.  For `0 ≤ p ≤ 100` the
single-precision value of `(p/100.0F)*114.0F` is within `2^-22 * 114 <
10^-4` of the rational `57p/50`; that rational, when not an integer, is at
distance at least `1/50` from every integer, and when it is an integer
(p = 0, 50 or 100, where `p/100.0F` is exactly 0, 0.5 or 1) the float
product is exact.  Hence the truncated float equals `⌊114p/100⌋`, i.e.
`Nat` division. -/
def battery_bar_width (p : Nat) : Nat :=
  p * 114 / 100

/-- The battery layer's frame, from `main_window_load`:
`s_battery_layer = layer_create(GRect(14, 54, 115, 2))`. -/
def battery_layer_frame : GRect := ⟨14, 54, 115, 2⟩

/-- `layer_get_bounds(layer)` inside `battery_update_proc`: the frame
re-based at the origin. -/
def battery_layer_bounds : GRect :=
  ⟨0, 0, battery_layer_frame.w, battery_layer_frame.h⟩

/-- `battery_update_proc`: fills the whole bounds rectangle black
(the background/track), then fills the bar rectangle
`GRect(0, 0, width, bounds.size.h)` white.  `p` is the stored
`s_battery_level`. -/
def battery_update_proc (p : Nat) : List Effect :=
  [Effect.fillRect GColor.black battery_layer_bounds,
   Effect.fillRect GColor.white ⟨0, 0, battery_bar_width p, battery_layer_bounds.h⟩]

/-- Modelled from the spec (claim C2's words, not from the source): the
bar width as the spec states it, `round(percent / 100 × track_width)` with
real division and round-to-nearest (`round` on `ℚ`). -/
def spec_round_width (p : Nat) : ℤ :=
  round ((p : ℚ) / 100 * 114)

/-! ## Bluetooth -/

/-- `bluetooth_callback`: hides the bluetooth icon iff connected, then, if
not connected, issues one `vibes_double_pulse()`.  The callback reads no
stored state, so its behavior is independent of any previous connection
state (level-triggered). -/
def bluetooth_callback (connected : Bool) : List Effect :=
  [Effect.setHidden LayerId.btIcon connected] ++
    (if connected then [] else [Effect.vibeDoublePulse])

/-- Is this effect the haptic double pulse? -/
def is_vibe : Effect → Bool
  | Effect.vibeDoublePulse => true
  | _ => false

/-! ## Inbound weather messages

`inbox_received_callback` assembles C strings with `snprintf` into fixed
buffers; we model C strings as `List Char` (the message's `CONDITIONS`
value is a byte string; we identify bytes with `Char`s, faithful for the
ASCII data at issue) and `snprintf` truncation into a `size`-byte buffer
as keeping the first `size - 1` characters (one byte is reserved for the
terminating NUL). -/

/-- `snprintf` into a `size`-byte buffer: the stored string is the first
`size - 1` characters of the formatted string. -/
def snprintf_cap (size : Nat) (s : List Char) : List Char :=
  s.take (size - 1)

/-- `snprintf(temperature_buffer, 8, "%dF", t)`: the decimal rendering of
the `int32` temperature followed by `F`, truncated to 7 characters.
`toString (t : Int)` agrees with C `%d` (optional minus sign, then decimal
digits). -/
def temperature_buffer (t : Int) : List Char :=
  snprintf_cap 8 ((toString t).data ++ ['F'])

/-- `snprintf(conditions_buffer, 32, "%s", c)`: the conditions string
truncated to 31 characters. -/
def conditions_buffer (c : List Char) : List Char :=
  snprintf_cap 32 c

/-- `snprintf(weather_layer_buffer, 32, "%s, %s", temperature_buffer,
conditions_buffer)`: the two buffers joined by `", "`, truncated to 31
characters. -/
def weather_layer_buffer (t : Int) (c : List Char) : List Char :=
  snprintf_cap 32 (temperature_buffer t ++ [',', ' '] ++ conditions_buffer c)

/-- `inbox_received_callback`: looks up the `TEMPERATURE` and `CONDITIONS`
tuples; if BOTH are present, assembles `weather_layer_buffer` and sets the
weather layer's text to it; otherwise does nothing at all (no state
change, no logging).  `prior` is the text held in `weather_layer_buffer`
from the previous complete update; the result pairs the buffer's new
contents with the effects performed. -/
def inbox_received_callback (temp : Option Int) (cond : Option (List Char))
    (prior : List Char) : List Char × List Effect :=
  match temp, cond with
  | some t, some c =>
      (weather_layer_buffer t c,
       [Effect.setText LayerId.weather (String.mk (weather_layer_buffer t c))])
  | _, _ => (prior, [])

/-- `inbox_dropped_callback`: logs, changes nothing. -/
def inbox_dropped_callback : List Effect :=
  [Effect.log "Message dropped!"]

/-- `outbox_failed_callback`: logs, changes nothing. -/
def outbox_failed_callback : List Effect :=
  [Effect.log "Outbox send failed!"]

/-! ## Theorems -/

/-- Claim C1: on every minute tick, a weather-refresh request (an outbound
app message) is emitted iff the tick's minute is a multiple of 30, and
exactly one such request is emitted per qualifying tick: the number of
outbound messages in `tick_handler`'s effects is 1 when
`tm_min % 30 = 0` and 0 otherwise. -/
theorem tick_weather_request_count (is24h : Bool) (t : Tm) :
    (tick_handler is24h t).countP is_send = (if t.tm_min % 30 = 0 then 1 else 0) ∧
    ((tick_handler is24h t).countP is_send = 1 ↔ t.tm_min % 30 = 0) := by
  by_cases h : t.tm_min % 30 = 0 <;>
    simp [tick_handler, update_time, h, List.countP_append, List.countP_cons, is_send]

/-- Claim C1 witness: at minute 0 the count is 1, at minute 7 it is 0. -/
theorem tick_weather_request_count_witness :
    (tick_handler true ⟨0, 13, 1, 0, 0⟩).countP is_send = 1 ∧
    (tick_handler true ⟨7, 13, 1, 0, 0⟩).countP is_send = 0 :=
  ⟨(tick_weather_request_count true ⟨0, 13, 1, 0, 0⟩).2.mpr (by decide),
   (tick_weather_request_count true ⟨7, 13, 1, 0, 0⟩).1.trans (by decide)⟩

/-- Claim C2 counterexample: at battery percent 5 the code renders a bar
of width 5 (truncation of 5.7), while `round(5 / 100 × 114) = 6`; the
claimed round-to-nearest rule fails. -/
theorem battery_width_not_round :
    (battery_bar_width 5 : ℤ) ≠ spec_round_width 5 := by
  norm_num [spec_round_width, round_eq, battery_bar_width]

/-- Claim C2 (amended): the rendered battery bar width is the FLOOR of
`p × 114 / 100` (the C cast to `int` truncates; the value is nonnegative,
so truncation is the floor), not the rounding to nearest. -/
theorem battery_bar_width_eq_floor (p : Nat) :
    battery_bar_width p = ⌊((p : ℚ) * 114) / 100⌋₊ := by
  rw [battery_bar_width]
  rw [show ((p : ℚ) * 114) = ((p * 114 : ℕ) : ℚ) by push_cast; ring]
  rw [show (100 : ℚ) = ((100 : ℕ) : ℚ) by norm_num]
  rw [Nat.floor_div_nat, Nat.floor_natCast]

/-- Claim C3 counterexample: at p = 100 `battery_update_proc` paints a
115-pixel-wide background rectangle (the layer bounds) but only a
114-pixel-wide bar, so the full bar does not reach the full width of the
background rectangle painted behind it. -/
theorem battery_full_bar_below_track :
    battery_update_proc 100 =
      [Effect.fillRect GColor.black ⟨0, 0, 115, 2⟩,
       Effect.fillRect GColor.white ⟨0, 0, 114, 2⟩] ∧ (114 : Nat) ≠ 115 := by
  decide

/-- Claim C3 (amended): for battery percents the rendered bar width is
monotonically non-decreasing, equals 0 at p = 0, and equals 114 (the
track-width constant) at p = 100 — one pixel short of the 115-pixel-wide
background rectangle behind it. -/
theorem battery_bar_monotone_and_endpoints :
    (∀ p q : Nat, p ≤ q → battery_bar_width p ≤ battery_bar_width q) ∧
    battery_bar_width 0 = 0 ∧ battery_bar_width 100 = 114 ∧
    battery_layer_bounds.w = 115 :=
  ⟨fun _ _ h => Nat.div_le_div_right (Nat.mul_le_mul_right _ h),
   rfl, rfl, rfl⟩

/-- Claim C3 witness: monotonicity applied at the concrete pair 3 ≤ 5. -/
theorem battery_bar_monotone_witness :
    3 ≤ 5 ∧ battery_bar_width 3 ≤ battery_bar_width 5 :=
  ⟨by decide, battery_bar_monotone_and_endpoints.1 3 5 (by decide)⟩

/-- Claim C4: an inbound weather message missing the temperature field or
the conditions field leaves the stored weather text unchanged and
performs no effect at all (no text update, no log): a silent no-op. -/
theorem partial_message_noop (temp : Option Int) (cond : Option (List Char))
    (prior : List Char) (h : temp = none ∨ cond = none) :
    inbox_received_callback temp cond prior = (prior, []) := by
  cases temp with
  | none => cases cond <;> rfl
  | some t =>
    cases cond with
    | none => rfl
    | some c => simp at h

/-- Claim C4 witness: a message with conditions but no temperature leaves
the prior text "72F, Sunny" in place with no effects. -/
theorem partial_message_noop_witness :
    ((none : Option Int) = none ∨ (some ("Cloudy".data) : Option (List Char)) = none) ∧
    inbox_received_callback none (some ("Cloudy".data)) ("72F, Sunny".data) =
      (("72F, Sunny".data), []) :=
  ⟨Or.inl rfl, partial_message_noop none (some ("Cloudy".data)) ("72F, Sunny".data) (Or.inl rfl)⟩

/-- Claim C5 counterexample: with temperature 72 and a 30-character
conditions string, the stored weather text is NOT
`"<temperature>F, <conditions>"` — the 32-byte buffer truncates it to 31
characters, so the universally quantified claim fails. -/
theorem weather_text_truncated :
    (inbox_received_callback (some 72) (some (List.replicate 30 'a')) []).1 ≠
      (toString (72 : Int)).data ++ ['F', ',', ' '] ++ List.replicate 30 'a' := by
  decide

/-- Claim C5 (amended): when both fields are present the stored weather
text is `"<temperature>F, <conditions>"` truncated to the 31 characters
the 32-byte buffer can hold (with the `"<temperature>F"` part itself
truncated to 7 characters first); whenever the formatted string fits
these bounds — as `"72F, Cloudy"` does — the text is exactly
`"<temperature>F, <conditions>"`. -/
theorem weather_text_format (t : Int) (c : List Char) (prior : List Char)
    (ht : ((toString t).data ++ ['F']).length ≤ 7)
    (hw : ((toString t).data ++ ['F'] ++ [',', ' '] ++ c).length ≤ 31) :
    (inbox_received_callback (some t) (some c) prior).1 =
      (toString t).data ++ ['F', ',', ' '] ++ c := by
  have hc : c.length ≤ 31 := by
    simp [List.length_append] at hw
    omega
  simp only [inbox_received_callback, weather_layer_buffer, temperature_buffer,
    conditions_buffer, snprintf_cap]
  rw [List.take_of_length_le ht, List.take_of_length_le hc]
  rw [List.take_of_length_le (by simpa using hw)]
  simp

/-- Claim C5 witness: temperature 72 and conditions "Cloudy" produce
exactly "72F, Cloudy". -/
theorem weather_text_format_witness :
    ((toString (72 : Int)).data ++ ['F']).length ≤ 7 ∧
    ((toString (72 : Int)).data ++ ['F'] ++ [',', ' '] ++ "Cloudy".data).length ≤ 31 ∧
    (inbox_received_callback (some 72) (some ("Cloudy".data)) []).1 = "72F, Cloudy".data :=
  ⟨by decide, by decide,
   (weather_text_format 72 ("Cloudy".data) [] (by decide) (by decide)).trans (by decide)⟩

/-- Claim C6: a bluetooth-changed event with connected = false performs
exactly one haptic double pulse and one with connected = true performs
none; `bluetooth_callback` reads no stored state, so this holds
regardless of the previous connection state (level-triggered). -/
theorem bluetooth_vibe_count (connected : Bool) :
    (bluetooth_callback connected).countP is_vibe = if connected then 0 else 1 := by
  cases connected <;> simp [bluetooth_callback, List.countP_cons, is_vibe]

/-- Claim C7: at wall time 13:05, `update_time` writes "13:05" to the
time layer when the 24-hour flag is true and "01:05" when it is false. -/
theorem time_text_13_05 :
    Effect.setText LayerId.time "13:05" ∈ update_time true ⟨5, 13, 1, 0, 0⟩ ∧
    Effect.setText LayerId.time "01:05" ∈ update_time false ⟨5, 13, 1, 0, 0⟩ := by
  decide

/-- Claim C8 counterexample: for a wall time on Wednesday, March 5, the
date text is not "Wed Mar 5" — `strftime`'s `%e` space-pads the
single-digit day, yielding a double space. -/
theorem date_text_not_single_spaced :
    date_text ⟨7, 9, 5, 2, 3⟩ ≠ "Wed Mar 5" := by
  decide

/-- Claim C8 (amended): for a wall time on Wednesday, March 5,
`update_time` writes "Wed Mar  5" (with the day space-padded to width 2
by `%e`, hence two spaces before the 5) to the date layer. -/
theorem date_text_wed_mar_5 :
    Effect.setText LayerId.date "Wed Mar  5" ∈ update_time true ⟨7, 9, 5, 2, 3⟩ := by
  decide

/-- Claim C9 counterexample: the outbound weather-refresh message is not
zero-payload: on a qualifying tick the (unique) message sent carries the
field list [(0, 0)] — `dict_write_uint8(iter, 0, 0)` writes one key/value
pair — which is not empty. -/
theorem outbox_message_nonempty :
    sent_messages (tick_handler true ⟨0, 13, 1, 0, 0⟩) = [[(0, 0)]] ∧
    ([(0, 0)] : List (Nat × Nat)) ≠ [] := by
  decide

/-- Claim C9 (amended): every outbound weather-refresh message sent on a
qualifying minute tick carries exactly one payload field, key 0 with
one-byte value 0 — a fixed dummy trigger byte, not a zero-field
message. -/
theorem outbox_message_fields (is24h : Bool) (t : Tm) (m : List (Nat × Nat))
    (h : m ∈ sent_messages (tick_handler is24h t)) : m = [(0, 0)] := by
  by_cases h30 : t.tm_min % 30 = 0 <;>
    simp [sent_messages, tick_handler, update_time, h30] at h
  exact h

/-- Claim C9 witness: the message sent at minute 30 is [(0, 0)]. -/
theorem outbox_message_fields_witness :
    [(0, 0)] ∈ sent_messages (tick_handler true ⟨30, 13, 1, 0, 0⟩) ∧
    ([(0, 0)] : List (Nat × Nat)) = [(0, 0)] :=
  ⟨by decide, outbox_message_fields true ⟨30, 13, 1, 0, 0⟩ [(0, 0)] (by decide)⟩

/-- Claim C10: all weather string assembly is length-bounded by the fixed
8/32/32-byte buffers: the temperature buffer holds at most 7 characters,
the conditions buffer at most 31, and the stored weather text at most
31 — in particular, for temperature 72 a 30-character conditions string
is silently truncated (the assembled text stops at 31 of the 35
formatted characters). -/
theorem weather_buffers_bounded (t : Int) (c : List Char) :
    (temperature_buffer t).length ≤ 7 ∧
    (conditions_buffer c).length ≤ 31 ∧
    (weather_layer_buffer t c).length ≤ 31 ∧
    (weather_layer_buffer 72 (List.replicate 30 'a')).length = 31 := by
  refine ⟨?_, ?_, ?_, by decide⟩ <;>
    simp [weather_layer_buffer, temperature_buffer, conditions_buffer, snprintf_cap]

end Watchface
